import Mathlib

/-!
Verification of the ownCloud WebDAV VIO backend (modules/csync_owncloud.c).

We give a shallow embedding of the backend's pure decision logic: the
HTTP-status to errno mapper, the neon-result to errno mapper, the cache
bookkeeping of the stat / listing / ETag caches, and the control flow of
`owncloud_stat`, `owncloud_sendfile`, `owncloud_unlink`, `owncloud_mkdir`,
`owncloud_utimes` and `owncloud_close`.  Strings are modelled as `List Char`
(C byte strings restricted to the character data), machine integers as `Int`
(no arithmetic in the embedded code comes near the width of `long`), fallible
operations return `Option`.  External-library behaviour (libneon) enters the
model only as function arguments: the HTTP status of a dispatched request,
the neon result code of a dispatch, and the parsed leading integer of the
session's last error string.
-/

/-- C strings (byte strings) are modelled as lists of characters. -/
abbrev Str := List Char

/-- The POSIX-style error taxonomy the module stores into `errno`.
`noError` is the literal value 0; `eperm` is `EPERM`, `enoent` is `ENOENT`,
`eagain` is `EAGAIN`, `eacces` is `EACCES`, `einval` is `EINVAL`,
`efbig` is `EFBIG`, `enospc` is `ENOSPC`, `eexist` is `EEXIST`,
`ioError` is `EIO`.  The constructors from `serviceUnavailable` on model the
csync-specific `ERRNO_*` constants (defined in csync_macros.h, outside the
supplied sources); they are distinct from every POSIX value above. -/
inductive Errno where
  | noError
  | eperm
  | enoent
  | eagain
  | eacces
  | einval
  | efbig
  | enospc
  | eexist
  | ioError
  | serviceUnavailable
  | lookupError
  | userUnknownOnServer
  | proxyAuth
  | connectFail
  | timeoutFail
  | preconditionFail
  | retryLater
  | redirected
  | generalError
  | errorString
  | wrongContent
  deriving DecidableEq

/-- The neon transport result codes (`NE_OK`, `NE_ERROR`, `NE_LOOKUP`,
`NE_AUTH`, `NE_PROXYAUTH`, `NE_CONNECT`, `NE_TIMEOUT`, `NE_FAILED`,
`NE_RETRY`, `NE_REDIRECT`). -/
inductive NeonResult where
  | ok
  | error
  | lookup
  | auth
  | proxyAuth
  | connectFail
  | timeoutFail
  | failed
  | retry
  | redirect
  deriving DecidableEq

/-- Embedding of `set_errno_from_http_errcode` (csync_owncloud.c:218-291): the fixed
HTTP-status to errno table, one branch per `case` group of the C switch,
in the textual order of the source. -/
def set_errno_from_http_errcode (err : Int) : Errno :=
  if err = 200 ∨ err = 201 ∨ err = 202 ∨ err = 203 ∨
     err = 204 ∨ err = 205 ∨ err = 207 ∨ err = 304 then
    Errno.noError
  else if err = 401 ∨ err = 402 ∨ err = 407 ∨ err = 405 then
    Errno.eperm
  else if err = 301 ∨ err = 303 ∨ err = 404 ∨ err = 410 then
    Errno.enoent
  else if err = 408 ∨ err = 504 then
    Errno.eagain
  else if err = 423 then
    Errno.eacces
  else if err = 400 ∨ err = 403 ∨ err = 409 ∨ err = 411 ∨ err = 412 ∨
          err = 414 ∨ err = 415 ∨ err = 424 ∨ err = 501 then
    Errno.einval
  else if err = 507 then
    Errno.enospc
  else if err = 206 ∨ err = 300 ∨ err = 302 ∨ err = 305 ∨ err = 306 ∨
          err = 307 ∨ err = 406 ∨ err = 416 ∨ err = 417 ∨ err = 422 ∨
          err = 500 ∨ err = 502 ∨ err = 505 then
    Errno.ioError
  else if err = 503 then
    Errno.serviceUnavailable
  else if err = 413 then
    Errno.efbig
  else
    Errno.ioError

/-- Embedding of `http_result_code_from_session` followed by `set_errno_from_session`
(csync_owncloud.c:293-315).  The session's last error string is summarized
by its parsed leading integer (`strtol`): `none` models a string with no
leading digits, in which case the code is `ERRNO_ERROR_STRING`.  A parsed
code equal to `EIO` (5) is stored into errno directly; every other parsed
code goes through the HTTP table. -/
def set_errno_from_session (parsedCode : Option Int) : Errno :=
  match parsedCode with
  | none => Errno.errorString
  | some err => if err = 5 then Errno.ioError else set_errno_from_http_errcode err

/-- Embedding of `set_errno_from_neon_errcode` (csync_owncloud.c:317-356): transport codes
map to the csync-specific errno constants; `NE_OK` and `NE_ERROR` defer to
the session's error string. -/
def set_errno_from_neon_errcode (neonCode : NeonResult) (parsedCode : Option Int) : Errno :=
  match neonCode with
  | NeonResult.ok => set_errno_from_session parsedCode
  | NeonResult.error => set_errno_from_session parsedCode
  | NeonResult.lookup => Errno.lookupError
  | NeonResult.auth => Errno.userUnknownOnServer
  | NeonResult.proxyAuth => Errno.proxyAuth
  | NeonResult.connectFail => Errno.connectFail
  | NeonResult.timeoutFail => Errno.timeoutFail
  | NeonResult.failed => Errno.preconditionFail
  | NeonResult.retry => Errno.retryLater
  | NeonResult.redirect => Errno.redirected

/-- The errno table exactly as claim C1 words it: 0 for every status in
200-207 and for 304, and the listed groups otherwise.  This definition
follows the specification text, to be compared with
`set_errno_from_http_errcode`. -/
def c1_spec_table (s : Int) : Errno :=
  if (200 ≤ s ∧ s ≤ 207) ∨ s = 304 then
    Errno.noError
  else if s = 401 ∨ s = 402 ∨ s = 405 ∨ s = 407 then
    Errno.eperm
  else if s = 301 ∨ s = 303 ∨ s = 404 ∨ s = 410 then
    Errno.enoent
  else if s = 408 ∨ s = 504 then
    Errno.eagain
  else if s = 423 then
    Errno.eacces
  else if s = 400 ∨ s = 403 ∨ s = 409 ∨ s = 411 ∨ s = 412 ∨
          s = 414 ∨ s = 415 ∨ s = 424 ∨ s = 501 then
    Errno.einval
  else if s = 413 then
    Errno.efbig
  else if s = 507 then
    Errno.enospc
  else if s = 503 then
    Errno.serviceUnavailable
  else
    Errno.ioError

/-- The errno table of claim C1 amended at its single point of failure:
status 206 (Partial Content) is not mapped to 0 but to I/O-error, so the
success row covers 200-205, 207 and 304 only. -/
def c1_amended_table (s : Int) : Errno :=
  if (200 ≤ s ∧ s ≤ 207 ∧ s ≠ 206) ∨ s = 304 then
    Errno.noError
  else if s = 401 ∨ s = 402 ∨ s = 405 ∨ s = 407 then
    Errno.eperm
  else if s = 301 ∨ s = 303 ∨ s = 404 ∨ s = 410 then
    Errno.enoent
  else if s = 408 ∨ s = 504 then
    Errno.eagain
  else if s = 423 then
    Errno.eacces
  else if s = 400 ∨ s = 403 ∨ s = 409 ∨ s = 411 ∨ s = 412 ∨
          s = 414 ∨ s = 415 ∨ s = 424 ∨ s = 501 then
    Errno.einval
  else if s = 413 then
    Errno.efbig
  else if s = 507 then
    Errno.enospc
  else if s = 503 then
    Errno.serviceUnavailable
  else
    Errno.ioError

/-- C1 counterexample: at HTTP status 206 the mapper of the source yields
`EIO`, while the claimed table demands errno 0, so the claim as stated is
false at input 206. -/
theorem errcode_206_counterexample :
    set_errno_from_http_errcode 206 = Errno.ioError ∧
    c1_spec_table 206 = Errno.noError ∧
    ¬ set_errno_from_http_errcode 206 = c1_spec_table 206 := by
  refine ⟨by decide, by decide, by decide⟩

set_option maxHeartbeats 4000000 in
/-- C1 (amended): for every HTTP numeric status code, the error mapper
`set_errno_from_http_errcode` produces exactly the errno of the claimed
table with 206 moved to the I/O-error row: 0 for 200-205, 207 and 304,
permission-denied for 401, 402, 405, 407, no-such-entity for 301, 303, 404,
410, try-again for 408 and 504, access-denied for 423, invalid-argument for
400, 403, 409, 411, 412, 414, 415, 424, 501, file-too-large for 413,
no-space for 507, service-unavailable for 503, and I/O-error for every
other status. -/
theorem errcode_table_amended :
    ∀ s : Int, set_errno_from_http_errcode s = c1_amended_table s := by
  intro s
  unfold set_errno_from_http_errcode c1_amended_table
  split_ifs <;> first | rfl | omega

/-- Value of a hexadecimal digit, used by the percent-decoder. -/
def hexDigitVal (c : Char) : Option Nat :=
  if '0' ≤ c ∧ c ≤ '9' then some (c.toNat - '0'.toNat)
  else if 'a' ≤ c ∧ c ≤ 'f' then some (c.toNat - 'a'.toNat + 10)
  else if 'A' ≤ c ∧ c ≤ 'F' then some (c.toNat - 'A'.toNat + 10)
  else none

/-- libneon's `ne_path_unescape`: percent-decoding of a path.  Yields `none`
on a malformed escape sequence (neon returns NULL there). -/
def ne_path_unescape : Str → Option Str
  | [] => some []
  | c :: rest =>
    if c = '%' then
      match rest with
      | a :: b :: rest2 =>
        match hexDigitVal a, hexDigitVal b with
        | some x, some y => (ne_path_unescape rest2).map (fun t => Char.ofNat (16 * x + y) :: t)
        | _, _ => none
      | _ => none
    else
      (ne_path_unescape rest).map (fun t => c :: t)

/-- The trailing-slash stripping that `owncloud_stat` performs on a resource
uri before comparing it with the decoded target
(csync_owncloud.c:1239-1241: `while( len > 0 && res->uri[len-1] == '/' ) --len`). -/
def stripTrailingSlashes (s : Str) : Str :=
  (s.reverse.dropWhile (fun c => c == '/')).reverse

/-- Modelled from the spec: `c_basename` (c_lib support library, not under
src/) returns the filename component of a path, the part after the last
slash. -/
def c_basename (p : Str) : Str :=
  (p.reverse.takeWhile (fun c => !(c == '/'))).reverse

/-- The md5/content-id field the PROPFIND `results` callback stores into a
resource (csync_owncloud.c:927-935): when the `DAV:getetag` property value
is longer than two characters, its first and its last character are removed
(under the comment "Skip the quotes around the string"); otherwise no id is
stored. -/
def results_md5 (md5sum : Option Str) : Option Str :=
  match md5sum with
  | none => none
  | some s =>
    if 0 < (s.length : Int) - 2 then some ((s.drop 1).take (s.length - 2)) else none

/-- The ETag-cache update of `install_content_reader`
(csync_owncloud.c:1350-1356): when the GET response carries a nonempty
`ETag` header, the cache entry is replaced by the pair (decoded request url,
raw header value); otherwise the cache is left alone. -/
def install_content_reader_id_cache (etag : Option Str) (cleanUri : Str)
    (old : Option (Str × Str)) : Option (Str × Str) :=
  match etag with
  | some e => if e ≠ [] then some (cleanUri, e) else old
  | none => old

/-- Quote stripping as the specification words it: surrounding double quotes
are removed, anything else is kept as is.  This definition follows the
specification text, to be compared with what the code stores. -/
def spec_stripQuotes (s : Str) : Str :=
  match s with
  | '"' :: rest => if rest.getLast? = some '"' then rest.dropLast else s
  | _ => s

/-- C4 counterexample: a GET response with the quoted wire ETag "abc" makes
`install_content_reader` store the raw five-character value, quotes
included, into the ETag cache; the quote-stripped form would be the
three-character core, so the stored entry is not quote-stripped and the
claim fails. -/
theorem etag_cache_raw_counterexample :
    install_content_reader_id_cache (some ['"', 'a', 'b', 'c', '"']) ['u'] none
      = some (['u'], ['"', 'a', 'b', 'c', '"']) ∧
    spec_stripQuotes ['"', 'a', 'b', 'c', '"'] = ['a', 'b', 'c'] ∧
    ¬ (['"', 'a', 'b', 'c', '"'] : Str) = ['a', 'b', 'c'] := by
  refine ⟨by decide, by decide, by decide⟩

/-- C4 (amended): of the two caches only the stat-cache side is
quote-stripped.  For every quoted wire ETag with a nonempty core, the
content id the PROPFIND parser stores (and which `readdir` copies into the
stat cache) is the core with the surrounding quotes removed, while the
entry the GET path stores in the ETag cache is the raw wire value with the
quotes intact (stripping is deferred to the file-id lookup). -/
theorem etag_caches_amended (core u : Str) (old : Option (Str × Str)) (h : core ≠ []) :
    results_md5 (some (['"'] ++ core ++ ['"'])) = some core ∧
    install_content_reader_id_cache (some (['"'] ++ core ++ ['"'])) u old
      = some (u, ['"'] ++ core ++ ['"']) := by
  constructor
  · have hcl : 0 < core.length := List.length_pos.mpr h
    simp only [results_md5]
    rw [if_pos]
    · congr 1
      have hdrop : (['"'] ++ core ++ ['"']).drop 1 = core ++ ['"'] := by simp
      rw [hdrop]
      have hlen2 : (['"'] ++ core ++ ['"']).length - 2 = core.length := by
        simp [List.length_append]
      rw [hlen2]
      exact List.take_left core ['"']
    · have hlen : ((['"'] ++ core ++ ['"']).length : Int) = core.length + 2 := by
        simp [List.length_append]
        ring
      rw [hlen]
      omega
  · simp [install_content_reader_id_cache]

/-- Witness for `etag_caches_amended` at the wire ETag "ab". -/
theorem etag_caches_amended_witness :
    (['a', 'b'] : Str) ≠ [] ∧
    (results_md5 (some (['"'] ++ ['a', 'b'] ++ ['"'])) = some ['a', 'b'] ∧
     install_content_reader_id_cache (some (['"'] ++ ['a', 'b'] ++ ['"'])) ['u'] none
       = some (['u'], ['"'] ++ ['a', 'b'] ++ ['"'])) :=
  ⟨by decide, etag_caches_amended ['a', 'b'] ['u'] none (by decide)⟩

/-- Embedding of `enum resource_type` (csync_owncloud.c:64-69). -/
inductive ResourceType where
  | normal
  | collection
  | reference
  | errorKind
  deriving DecidableEq

/-- The two file types `resourceToFileStat` assigns
(`CSYNC_VIO_FILE_TYPE_REGULAR`, `CSYNC_VIO_FILE_TYPE_DIRECTORY`). -/
inductive FileType where
  | regular
  | directory
  deriving DecidableEq

/-- The `CSYNC_VIO_FILE_STAT_FIELDS_*` bitmask of a file-stat buffer, one
flag per bit the module touches. -/
structure StatFields where
  hasType : Bool
  hasSize : Bool
  hasMtime : Bool
  hasPerm : Bool
  hasMd5 : Bool
  deriving DecidableEq

/-- Embedding of `struct resource` (csync_owncloud.c:77-87): one entry of a PROPFIND
listing.  `md5` is the quote-stripped content id from `results_md5`
(`none` when the server sent no usable getetag). -/
structure Resource where
  uri : Str
  name : Str
  rtype : ResourceType
  size : Int
  modtime : Int
  md5 : Option Str
  deriving DecidableEq

/-- Embedding of `struct listdir_context` (csync_owncloud.c:92-98): the escaped
request-uri of the PROPFIND and its resource list.  The cursor and the
reference count play no part in the claims settled here and are omitted. -/
structure ListdirContext where
  target : Str
  list : List Resource
  deriving DecidableEq

/-- Embedding of `csync_vio_file_stat_t` as this module fills it; also the shape of the
single-entry stat cache `_stat_cache`. -/
structure VioFileStat where
  name : Str
  fields : StatFields
  ftype : Option FileType
  mtime : Int
  size : Int
  md5 : Option Str
  deriving DecidableEq

/-- The data portion `owncloud_stat` writes into the caller's buffer
beyond the name: fields mask, type, mtime, size, synthesized mode, md5. -/
structure StatBuf where
  fields : StatFields
  ftype : Option FileType
  mtime : Int
  size : Int
  mode : Int
  md5 : Option Str
  deriving DecidableEq

/-- Result of `owncloud_stat`: return value, whether
`fetch_resource_list` was invoked (i.e. the server was contacted), the
basename written into the buffer, and the data portion (`none` when the
code never filled type/size/mtime, leaving the buffer untouched). -/
structure StatOut where
  ret : Int
  fetched : Bool
  bufName : Str
  bufData : Option StatBuf
  deriving DecidableEq

/-- Embedding of `_stat_perms` (csync_owncloud.c:1147-1164): synthesized permissions,
drwxr-xr-x for directories and rw-r--r-- for regular files, never read from
the server. -/
def stat_perms (t : Option FileType) : Int :=
  if t = some FileType.directory then 0o40755 else 0o100644

/-- Embedding of `resourceToFileStat` (csync_owncloud.c:1105-1144): translate a resource
into the host's file-stat shape; the mtime is corrected by subtracting the
session's `time_delta`. -/
def resourceToFileStat (res : Resource) (delta : Int) : VioFileStat :=
  { name := res.name
    fields :=
      { hasType := if res.rtype = ResourceType.normal then true
                   else if res.rtype = ResourceType.collection then true else false
        hasSize := true
        hasMtime := true
        hasPerm := false
        hasMd5 := true }
    ftype := if res.rtype = ResourceType.normal then some FileType.regular
             else if res.rtype = ResourceType.collection then some FileType.directory
             else none
    mtime := res.modtime - delta
    size := res.size
    md5 := res.md5 }

/-- The per-resource match test of the `owncloud_stat` search loop
(csync_owncloud.c:1238-1252): with `len` the length of `res->uri` after
dropping trailing slashes, the C condition
`strncmp(res->uri, decodedUri, len) == 0 && decodedUri[len] == 0` holds
exactly when the decoded target equals `res->uri` stripped of its trailing
slashes (C strings carry no interior NUL).  A target whose decoding fails
is treated as matching nothing (the C would dereference NULL there; such
targets are never produced by `ne_path_escape`). -/
def stat_match (target : Str) (res : Resource) : Bool :=
  match ne_path_unescape target with
  | some d => stripTrailingSlashes res.uri == d
  | none => false

/-- The search loop of `owncloud_stat` over the PROPFIND result list. -/
def stat_find_res (target : Str) (l : List Resource) : Option Resource :=
  l.find? (stat_match target)

/-- The buffer content of the stat-cache hit branch
(csync_owncloud.c:1209-1227): every cached field is copied, the md5 flag is
or-ed in when a cached content id exists, the mode is synthesized from the
cached type. -/
def statBufOfCache (c : VioFileStat) : StatBuf :=
  { fields := { c.fields with hasMd5 := c.fields.hasMd5 || c.md5.isSome }
    ftype := c.ftype
    mtime := c.mtime
    size := c.size
    mode := stat_perms c.ftype
    md5 := c.md5 }

/-- The buffer content of the fresh-PROPFIND branch
(csync_owncloud.c:1260-1276), copied from the translated resource. -/
def statBufOfLfs (lfs : VioFileStat) : StatBuf :=
  { fields := lfs.fields
    ftype := lfs.ftype
    mtime := lfs.mtime
    size := lfs.size
    mode := stat_perms lfs.ftype
    md5 := lfs.md5 }

/-- The part of `owncloud_stat` after a stat-cache miss
(csync_owncloud.c:1229-1287): a failed fetch returns -1; otherwise the
listing is searched, a found resource is translated into the buffer, and a
search without match still returns 0 with the buffer data untouched. -/
def stat_fetch_path (name : Str) (fetch : Option ListdirContext) (delta : Int) : StatOut :=
  match fetch with
  | none => { ret := -1, fetched := true, bufName := name, bufData := none }
  | some ctx =>
    match stat_find_res ctx.target ctx.list with
    | some res =>
      { ret := 0, fetched := true, bufName := name,
        bufData := some (statBufOfLfs (resourceToFileStat res delta)) }
    | none => { ret := 0, fetched := true, bufName := name, bufData := none }

/-- The stat-cache test of `owncloud_stat` (csync_owncloud.c:1209):
`_stat_cache.name && strcmp(buf->name, _stat_cache.name) == 0`. -/
def stat_cache_hit (sc : Option VioFileStat) (name : Str) : Bool :=
  match sc with
  | some c => c.name == name
  | none => false

/-- Embedding of `owncloud_stat` (csync_owncloud.c:1188-1288).  The stat cache and the
fetch result (what `fetch_resource_list` would deliver) are explicit
arguments; `delta` is the session's current `time_delta`. -/
def owncloud_stat (uri : Str) (sc : Option VioFileStat)
    (fetch : Option ListdirContext) (delta : Int) : StatOut :=
  let name := c_basename uri
  match sc with
  | some c =>
    if c.name = name then
      { ret := 0, fetched := false, bufName := name, bufData := some (statBufOfCache c) }
    else stat_fetch_path name fetch delta
  | none => stat_fetch_path name fetch delta

/-- C9: a stat-cache hit is decided by basename equality alone.  For every
uri whose basename equals the cached entry's name, `owncloud_stat` returns
the cached type, size, mtime, content id and synthesized mode with
`fetched = false` (the server is never contacted), whatever listing a fetch
would have produced and even when the uri names a different path than the
resource that populated the cache. -/
theorem stat_cache_hit_by_basename (uri : Str) (c : VioFileStat)
    (fetch : Option ListdirContext) (delta : Int) (h : c.name = c_basename uri) :
    owncloud_stat uri (some c) fetch delta =
      { ret := 0, fetched := false, bufName := c_basename uri,
        bufData := some (statBufOfCache c) } := by
  simp [owncloud_stat, h]

/-- Witness for `stat_cache_hit_by_basename`: the cache was populated from
a file named f in directory /a, and stat of /b/f (a different path, same
basename) is answered from the cache with no fetch result available at
all. -/
theorem stat_cache_hit_by_basename_witness :
    (({ name := ['f'], fields := ⟨true, true, true, false, true⟩,
        ftype := some FileType.regular, mtime := 5, size := 3,
        md5 := some ['e'] } : VioFileStat).name = c_basename ['/', 'b', '/', 'f']) ∧
    owncloud_stat ['/', 'b', '/', 'f']
      (some { name := ['f'], fields := ⟨true, true, true, false, true⟩,
              ftype := some FileType.regular, mtime := 5, size := 3, md5 := some ['e'] })
      none 0 =
      { ret := 0, fetched := false, bufName := c_basename ['/', 'b', '/', 'f'],
        bufData := some (statBufOfCache
          { name := ['f'], fields := ⟨true, true, true, false, true⟩,
            ftype := some FileType.regular, mtime := 5, size := 3, md5 := some ['e'] }) } :=
  ⟨by decide,
   stat_cache_hit_by_basename ['/', 'b', '/', 'f']
     { name := ['f'], fields := ⟨true, true, true, false, true⟩,
       ftype := some FileType.regular, mtime := 5, size := 3, md5 := some ['e'] }
     none 0 (by decide)⟩

/-- C5: for every uri whose stat is answered from a fresh PROPFIND (stat
cache misses, the listing contains a matching resource), the returned mtime
satisfies `mtime + time_delta = server modtime`: the server-reported
modification time of the matched resource minus the current time delta is
what the host sees. -/
theorem stat_mtime_time_delta (uri : Str) (sc : Option VioFileStat) (ctx : ListdirContext)
    (delta : Int) (res : Resource)
    (hmiss : stat_cache_hit sc (c_basename uri) = false)
    (hfind : stat_find_res ctx.target ctx.list = some res) :
    ∃ d, (owncloud_stat uri sc (some ctx) delta).bufData = some d ∧
      d.mtime + delta = res.modtime := by
  have hpath : stat_fetch_path (c_basename uri) (some ctx) delta =
      { ret := 0, fetched := true, bufName := c_basename uri,
        bufData := some (statBufOfLfs (resourceToFileStat res delta)) } := by
    simp [stat_fetch_path, hfind]
  cases sc with
  | none =>
    refine ⟨statBufOfLfs (resourceToFileStat res delta), ?_, ?_⟩
    · simp [owncloud_stat, hpath]
    · simp [statBufOfLfs, resourceToFileStat]
  | some c =>
    have hne : ¬ c.name = c_basename uri := by
      simpa [stat_cache_hit] using hmiss
    refine ⟨statBufOfLfs (resourceToFileStat res delta), ?_, ?_⟩
    · simp [owncloud_stat, hne, hpath]
    · simp [statBufOfLfs, resourceToFileStat]

/-- C10: when the PROPFIND succeeds but no resource of the listing matches
the decoded target (after stripping trailing slashes), `owncloud_stat`
still returns 0, with the caller's buffer left without type, size or mtime
data (`bufData = none`) rather than failing with no-such-entity. -/
theorem stat_no_match_returns_zero (uri : Str) (sc : Option VioFileStat) (ctx : ListdirContext)
    (delta : Int)
    (hmiss : stat_cache_hit sc (c_basename uri) = false)
    (hfind : stat_find_res ctx.target ctx.list = none) :
    owncloud_stat uri sc (some ctx) delta =
      { ret := 0, fetched := true, bufName := c_basename uri, bufData := none } := by
  have hpath : stat_fetch_path (c_basename uri) (some ctx) delta =
      { ret := 0, fetched := true, bufName := c_basename uri, bufData := none } := by
    simp [stat_fetch_path, hfind]
  cases sc with
  | none => simp [owncloud_stat, hpath]
  | some c =>
    have hne : ¬ c.name = c_basename uri := by
      simpa [stat_cache_hit] using hmiss
    simp [owncloud_stat, hne, hpath]

/-- Witness for `stat_mtime_time_delta`: a one-entry listing for /a with
server modtime 100 and time delta 7 yields a buffer mtime d with
d + 7 = 100. -/
theorem stat_mtime_time_delta_witness :
    stat_cache_hit none (c_basename ['/', 'a']) = false ∧
    stat_find_res (['/', 'a'] : Str)
      [({ uri := ['/', 'a'], name := ['a'], rtype := ResourceType.normal,
          size := 3, modtime := 100, md5 := none } : Resource)] =
      some { uri := ['/', 'a'], name := ['a'], rtype := ResourceType.normal,
             size := 3, modtime := 100, md5 := none } ∧
    (∃ d, (owncloud_stat ['/', 'a'] none
        (some { target := ['/', 'a'],
                list := [{ uri := ['/', 'a'], name := ['a'], rtype := ResourceType.normal,
                           size := 3, modtime := 100, md5 := none }] }) 7).bufData = some d ∧
      d.mtime + 7 = 100) :=
  ⟨by decide, by decide,
   stat_mtime_time_delta ['/', 'a'] none
     { target := ['/', 'a'],
       list := [{ uri := ['/', 'a'], name := ['a'], rtype := ResourceType.normal,
                  size := 3, modtime := 100, md5 := none }] }
     7
     { uri := ['/', 'a'], name := ['a'], rtype := ResourceType.normal,
       size := 3, modtime := 100, md5 := none }
     (by decide) (by decide)⟩

/-- Witness for `stat_no_match_returns_zero`: the listing for target /a
contains only /b, so nothing matches, yet stat returns 0 with no data. -/
theorem stat_no_match_returns_zero_witness :
    stat_cache_hit none (c_basename ['/', 'a']) = false ∧
    stat_find_res (['/', 'a'] : Str)
      [({ uri := ['/', 'b'], name := ['b'], rtype := ResourceType.normal,
          size := 3, modtime := 100, md5 := none } : Resource)] = none ∧
    owncloud_stat ['/', 'a'] none
      (some { target := ['/', 'a'],
              list := [{ uri := ['/', 'b'], name := ['b'], rtype := ResourceType.normal,
                         size := 3, modtime := 100, md5 := none }] }) 7 =
      { ret := 0, fetched := true, bufName := c_basename ['/', 'a'], bufData := none } :=
  ⟨by decide, by decide,
   stat_no_match_returns_zero ['/', 'a'] none
     { target := ['/', 'a'],
       list := [{ uri := ['/', 'b'], name := ['b'], rtype := ResourceType.normal,
                  size := 3, modtime := 100, md5 := none }] }
     7 (by decide) (by decide)⟩

/-- The two HTTP methods a transfer context carries ("PUT" / "GET",
assigned in `owncloud_open`). -/
inductive TransferMethod where
  | put
  | get
  deriving DecidableEq

/-- Embedding of `struct transfer_context` (csync_owncloud.c:133-139) restricted to what
the claims consult: the method and the decoded url. -/
structure TransferContext where
  method : TransferMethod
  cleanUri : Str
  deriving DecidableEq

/-- The three process-wide caches: `propfind_cache`, `_stat_cache` (`none`
models the empty cache whose name is NULL), and `_id_cache`
(csync_owncloud.c:188-191). -/
structure Caches where
  propfindCache : Option ListdirContext
  statCache : Option VioFileStat
  idCache : Option (Str × Str)
  deriving DecidableEq

/-- Embedding of `clean_caches` (csync_owncloud.c:193-202): frees and empties all three
caches. -/
def clean_caches (_ : Caches) : Caches :=
  { propfindCache := none, statCache := none, idCache := none }

/-- Embedding of `owncloud_close` (csync_owncloud.c:1698-1723): a NULL handle fails with
EBADF; otherwise the request is destroyed and, exactly when the handle's
method is "PUT", `clean_caches` runs.  Result: (return value, caches
afterwards). -/
def owncloud_close (handle : Option TransferContext) (c : Caches) : Int × Caches :=
  match handle with
  | none => (-1, c)
  | some ctx =>
    match ctx.method with
    | TransferMethod.put => (0, clean_caches c)
    | TransferMethod.get => (0, c)

/-- C7: `owncloud_close` of a valid handle returns 0 and clears the listing
cache, the stat cache and the ETag cache exactly when the handle's method
was PUT; a close of a GET handle leaves all three caches unchanged. -/
theorem close_put_clears_caches (ctx : TransferContext) (c : Caches) :
    owncloud_close (some ctx) c =
      (0, if ctx.method = TransferMethod.put then
            { propfindCache := none, statCache := none, idCache := none }
          else c) := by
  rcases ctx with ⟨m, u⟩
  cases m <;> simp [owncloud_close, clean_caches]

/-- Result of `owncloud_utimes`: return value, the value the PROPPATCH set
`DAV:lastmodified` to (`none` when no PROPPATCH was issued), the caches
afterwards, and the errno the call set. -/
structure UtimesOut where
  ret : Int
  sentLastModified : Option Int
  caches : Caches
  err : Option Errno
  deriving DecidableEq

/-- Embedding of `owncloud_utimes` (csync_owncloud.c:1954-2004): with a NULL uri the call
fails with ENOENT and with NULL times with EACCES, both before any request;
otherwise a PROPPATCH sets `DAV:lastmodified` to `times[1].tv_sec` plus the
session's `time_delta`.  On PROPPATCH failure the call returns -1 with the
caches untouched; on success it runs `clean_caches` and returns 0.
`times` carries the seconds of (atime, mtime). -/
def owncloud_utimes (uriGiven : Bool) (times : Option (Int × Int)) (delta : Int)
    (rc : NeonResult) (parsedCode : Option Int) (c : Caches) : UtimesOut :=
  if uriGiven = false then
    { ret := -1, sentLastModified := none, caches := c, err := some Errno.enoent }
  else
    match times with
    | none => { ret := -1, sentLastModified := none, caches := c, err := some Errno.eacces }
    | some t =>
      if rc = NeonResult.ok then
        { ret := 0, sentLastModified := some (t.2 + delta), caches := clean_caches c,
          err := none }
      else
        { ret := -1, sentLastModified := some (t.2 + delta), caches := c,
          err := some (set_errno_from_neon_errcode rc parsedCode) }

/-- C6: `owncloud_utimes` issues a PROPPATCH setting `DAV:lastmodified` to
`mtime.tv_sec + time_delta` (the inverse of the subtraction in stat); on
PROPPATCH success it clears all three caches and returns 0; on PROPPATCH
failure it returns -1 and leaves all caches unchanged. -/
theorem utimes_proppatch_and_caches (t : Int × Int) (delta : Int) (rc : NeonResult)
    (parsedCode : Option Int) (c : Caches) :
    (owncloud_utimes true (some t) delta rc parsedCode c).sentLastModified
        = some (t.2 + delta) ∧
    (rc = NeonResult.ok →
      owncloud_utimes true (some t) delta rc parsedCode c =
        { ret := 0, sentLastModified := some (t.2 + delta),
          caches := { propfindCache := none, statCache := none, idCache := none },
          err := none }) ∧
    (rc ≠ NeonResult.ok →
      (owncloud_utimes true (some t) delta rc parsedCode c).ret = -1 ∧
      (owncloud_utimes true (some t) delta rc parsedCode c).caches = c) := by
  unfold owncloud_utimes clean_caches
  cases rc <;> simp

/-- Witness for `utimes_proppatch_and_caches`: mtime 100 with time delta 7
sends lastmodified 107; on success the nonempty ETag cache is cleared. -/
theorem utimes_proppatch_and_caches_witness :
    (owncloud_utimes true (some (0, 100)) 7 NeonResult.ok none
        { propfindCache := none, statCache := none,
          idCache := some (['u'], ['e']) }).sentLastModified = some 107 ∧
    owncloud_utimes true (some (0, 100)) 7 NeonResult.ok none
        { propfindCache := none, statCache := none, idCache := some (['u'], ['e']) } =
      { ret := 0, sentLastModified := some 107,
        caches := { propfindCache := none, statCache := none, idCache := none },
        err := none } :=
  ⟨(utimes_proppatch_and_caches (0, 100) 7 NeonResult.ok none
      { propfindCache := none, statCache := none, idCache := some (['u'], ['e']) }).1,
   (utimes_proppatch_and_caches (0, 100) 7 NeonResult.ok none
      { propfindCache := none, statCache := none, idCache := some (['u'], ['e']) }).2.1 rfl⟩

/-- Embedding of `owncloud_unlink` (csync_owncloud.c:1911-1932): DELETE the path.  A NULL
cleaned path or a failed connect sets EINVAL and skips the request, a
dispatched DELETE feeds its neon result into the errno mapper, and the
function returns 0 on every control path.  Result: (return value, errno). -/
def owncloud_unlink (pathOk : Bool) (connectOk : Bool) (deleteRc : NeonResult)
    (parsedCode : Option Int) : Int × Errno :=
  if pathOk = false then (0, Errno.einval)
  else if connectOk = false then (0, Errno.einval)
  else (0, set_errno_from_neon_errcode deleteRc parsedCode)

/-- C3: `owncloud_unlink` returns 0 for every input, regardless of the
transport result of the DELETE request and also when the uri cannot be
parsed. -/
theorem unlink_always_returns_zero (pathOk connectOk : Bool) (deleteRc : NeonResult)
    (parsedCode : Option Int) :
    (owncloud_unlink pathOk connectOk deleteRc parsedCode).1 = 0 := by
  unfold owncloud_unlink
  split_ifs <;> rfl

/-- An HTTP status as libneon reports it: class (first digit) and full
code. -/
structure NeStatus where
  klass : Int
  code : Int
  deriving DecidableEq

/-- Result of `owncloud_sendfile`: return value and the errno the call
set (`none` when it left errno alone). -/
structure SendfileOut where
  rc : Int
  err : Option Errno
  deriving DecidableEq

/-- Embedding of `owncloud_sendfile` (csync_owncloud.c:1546-1696).  PUT: a missing
request or a failed fstat of the source fd give the soft failure 1; after
dispatch, a status class other than 2 maps the status through the errno
table and gives 1, a 2xx status gives 0.  GET: a neon-level dispatch
failure returns -1; otherwise a status class other than 2 gives 1 as for
PUT, and a 2xx status gives 0.  `reqValid` and `fstatOk` concern the PUT
preconditions, `neonStat` is the dispatch result, `st` the response
status. -/
def owncloud_sendfile (method : TransferMethod) (reqValid fstatOk : Bool)
    (neonStat : NeonResult) (st : NeStatus) (parsedCode : Option Int) : SendfileOut :=
  match method with
  | TransferMethod.put =>
    if reqValid = false then { rc := 1, err := none }
    else if fstatOk = false then { rc := 1, err := none }
    else if st.klass ≠ 2 then
      { rc := 1, err := some (set_errno_from_http_errcode st.code) }
    else
      { rc := 0, err := some (set_errno_from_neon_errcode neonStat parsedCode) }
  | TransferMethod.get =>
    if neonStat ≠ NeonResult.ok then
      { rc := -1, err := some (set_errno_from_neon_errcode neonStat parsedCode) }
    else if st.klass ≠ 2 then
      { rc := 1, err := some (set_errno_from_http_errcode st.code) }
    else
      { rc := 0, err := none }

/-- C2: in `owncloud_sendfile`, for the PUT path as for the GET path,
whenever the dispatched request completes (neon reports `NE_OK`, the
request exists and for PUT the source fd could be fstated) with a status
whose class is not 2, the call returns the soft-failure value 1 (never -1),
with errno taken from the HTTP table. -/
theorem sendfile_soft_failure (method : TransferMethod) (reqValid fstatOk : Bool)
    (st : NeStatus) (parsedCode : Option Int)
    (hreq : reqValid = true) (hfstat : fstatOk = true) (hklass : st.klass ≠ 2) :
    owncloud_sendfile method reqValid fstatOk NeonResult.ok st parsedCode =
      { rc := 1, err := some (set_errno_from_http_errcode st.code) } := by
  subst hreq hfstat
  cases method <;> simp [owncloud_sendfile, hklass]

/-- Witness for `sendfile_soft_failure`: a PUT answered with 507
(Insufficient Storage, class 5) returns 1. -/
theorem sendfile_soft_failure_witness :
    (true = true) ∧ (true = true) ∧ (((⟨5, 507⟩ : NeStatus).klass : Int) ≠ 2) ∧
    owncloud_sendfile TransferMethod.put true true NeonResult.ok ⟨5, 507⟩ none =
      { rc := 1, err := some (set_errno_from_http_errcode 507) } :=
  ⟨rfl, rfl, by decide,
   sendfile_soft_failure TransferMethod.put true true ⟨5, 507⟩ none rfl rfl (by decide)⟩

/-- The trailing-slash completion of `owncloud_mkdir`
(csync_owncloud.c:1834-1840): when the last character of the escaped path
is not a slash, one is appended.  (On the empty string the C would read
`path[len-1]` out of bounds; `_cleanPath` never produces it.) -/
def ensureTrailingSlash (p : Str) : Str :=
  if p.getLast? = some '/' then p else p ++ ['/']

/-- Result of `owncloud_mkdir`: return value, the path the MKCOL request
was issued on (`none` when no request went out), and the errno set. -/
structure MkdirOut where
  ret : Int
  mkcolPath : Option Str
  err : Option Errno
  deriving DecidableEq

/-- Embedding of `owncloud_mkdir` (csync_owncloud.c:1816-1860).  `cpath` is the escaped
path from `_cleanPath` (`none` when uri parsing failed), `connectOk` the
outcome of `dav_connect`, `mkcolStatus` the HTTP status of the MKCOL
response, `rc` the neon result of `ne_simple_request`.  A 405 status
overrides the errno mapping with EEXIST; the return value is 0 exactly for
`NE_OK`.  (A NULL path combined with a successful connect would make the C
read `strlen(NULL)`; that combination is unreachable because `dav_connect`
parses the same uri, and the model gives it the connect-failure result.) -/
def owncloud_mkdir (cpath : Option Str) (connectOk : Bool) (mkcolStatus : Int)
    (rc : NeonResult) (parsedCode : Option Int) : MkdirOut :=
  match cpath, connectOk with
  | _, false => { ret := -1, mkcolPath := none, err := some Errno.einval }
  | none, true => { ret := -1, mkcolPath := none, err := some Errno.einval }
  | some p, true =>
    let p2 := ensureTrailingSlash p
    let e := if mkcolStatus = 405 then Errno.eexist
             else set_errno_from_neon_errcode rc parsedCode
    if rc = NeonResult.ok then { ret := 0, mkcolPath := some p2, err := some e }
    else { ret := -1, mkcolPath := some p2, err := some e }

/-- Unfolding of `owncloud_mkdir` in the parsed-and-connected case. -/
theorem owncloud_mkdir_eq (p : Str) (mkcolStatus : Int) (rc : NeonResult)
    (parsedCode : Option Int) :
    owncloud_mkdir (some p) true mkcolStatus rc parsedCode =
      (let p2 := ensureTrailingSlash p
       let e := if mkcolStatus = 405 then Errno.eexist
                else set_errno_from_neon_errcode rc parsedCode
       if rc = NeonResult.ok then { ret := 0, mkcolPath := some p2, err := some e }
       else { ret := -1, mkcolPath := some p2, err := some e }) := rfl

/-- C8: `owncloud_mkdir` issues the MKCOL on the escaped path completed
with a trailing slash exactly when one was missing; an HTTP 405 answer is
remapped to exists-already (EEXIST) instead of the errno-table mapping, so
a second mkdir of the same directory fails with exists-already; every
other result takes its errno from the neon/HTTP error mapper. -/
theorem mkdir_slash_and_405 (p : Str) (hp : p ≠ []) (mkcolStatus : Int)
    (rc : NeonResult) (parsedCode : Option Int) :
    (owncloud_mkdir (some p) true mkcolStatus rc parsedCode).mkcolPath
        = some (ensureTrailingSlash p) ∧
    (p.getLast? ≠ some '/' → ensureTrailingSlash p = p ++ ['/']) ∧
    (p.getLast? = some '/' → ensureTrailingSlash p = p) ∧
    (mkcolStatus = 405 →
      (owncloud_mkdir (some p) true mkcolStatus rc parsedCode).err
        = some Errno.eexist) ∧
    (mkcolStatus ≠ 405 →
      (owncloud_mkdir (some p) true mkcolStatus rc parsedCode).err
        = some (set_errno_from_neon_errcode rc parsedCode)) ∧
    (mkcolStatus = 405 → rc ≠ NeonResult.ok →
      (owncloud_mkdir (some p) true mkcolStatus rc parsedCode).ret = -1 ∧
      (owncloud_mkdir (some p) true mkcolStatus rc parsedCode).err
        = some Errno.eexist) := by
  refine ⟨?_, ?_, ?_, ?_, ?_, ?_⟩
  · rw [owncloud_mkdir_eq]
    split_ifs <;> rfl
  · intro h
    unfold ensureTrailingSlash
    rw [if_neg h]
  · intro h
    unfold ensureTrailingSlash
    rw [if_pos h]
  · intro h
    rw [owncloud_mkdir_eq]
    simp only [if_pos h]
    split_ifs <;> rfl
  · intro h
    rw [owncloud_mkdir_eq]
    simp only [if_neg h]
    split_ifs <;> rfl
  · intro h hrc
    rw [owncloud_mkdir_eq]
    simp [if_pos h, if_neg hrc]

/-- Witness for `mkdir_slash_and_405`: MKCOL on the already existing
directory /d answers 405 and the call fails with exists-already; the path
the request used carries the appended trailing slash. -/
theorem mkdir_slash_and_405_witness :
    (['/', 'd'] : Str) ≠ [] ∧
    (owncloud_mkdir (some ['/', 'd']) true 405 NeonResult.error none).mkcolPath
      = some (ensureTrailingSlash ['/', 'd']) ∧
    (owncloud_mkdir (some ['/', 'd']) true 405 NeonResult.error none).ret = -1 ∧
    (owncloud_mkdir (some ['/', 'd']) true 405 NeonResult.error none).err
      = some Errno.eexist :=
  ⟨by decide,
   (mkdir_slash_and_405 ['/', 'd'] (by decide) 405 NeonResult.error none).1,
   ((mkdir_slash_and_405 ['/', 'd'] (by decide) 405 NeonResult.error none).2.2.2.2.2
      rfl (by decide)).1,
   ((mkdir_slash_and_405 ['/', 'd'] (by decide) 405 NeonResult.error none).2.2.2.2.2
      rfl (by decide)).2⟩
